import Mathlib

/-!
Shallow embedding of `src/fenics_service/main.py` (FEniCS solver service):
the job state machine of `_run_job`, the throttled monotone progress setter
`set_progress`, and the synthetic result generators `_build_stub_results`,
`_build_time_series`, `_build_stress_strain_curve`, together with
`_mesh_resolution` and `_estimate_allowable_stress`.

Conventions of the embedding:
* Python floats are embedded as exact rationals.
* `math.sin`, `math.exp` and the seeded PRNG `random.Random(seed)` are
  ambient-runtime functions, abstracted as the fields of an `Env` record:
  `Env.rngUnit seed k` is the k-th unit-interval draw of the stream seeded
  by the string `seed`, and `random.Random(seed).uniform a b` is
  `a + (b - a) * draw`, mirroring CPython's implementation of `uniform`.
* The external `dolfin` solver (out of scope per the spec) enters
  `run_job_final` as an `Except` outcome; on success the scalar field
  summaries it yields enter `solve_with_fenics_result` as a `SolverSummary`.
* Python truthiness on optional floats (`x or d`) is `pyOr`; the explicit
  `x if x is not None else d` pattern is `orElseNone`; `int(...)` is
  truncation toward zero, `pyInt`.
-/

namespace FenicsService

/-- Model of the `StressPoint` pydantic schema (main.py lines 14-16). -/
structure StressPoint where
  strain : ℚ
  stress : ℚ
  deriving DecidableEq

/-- Model of the `Material` pydantic schema (main.py lines 19-24); the field
`poisson_rat` embeds `poissonRatio`. -/
structure Material where
  id : ℤ
  name : String
  youngsModulus : ℚ
  poisson_rat : ℚ
  stressStrainCurve : List StressPoint
  deriving DecidableEq

/-- Model of the `SimulationRequest` pydantic schema (main.py lines 27-36);
the field `simType` embeds `type` and `damping_rat` embeds `dampingRatio`. -/
structure SimulationRequest where
  name : String
  materialId : ℤ
  simType : String
  appliedLoad : Option ℚ
  temperature : Option ℚ
  duration : Option ℚ
  frequency : Option ℚ
  damping_rat : Option ℚ
  material : Material
  deriving DecidableEq

/-- A point of the generated `timeSeriesData` (main.py lines 285-291). -/
structure TimePoint where
  time : ℚ
  stress : ℚ
  displacement : ℚ
  deriving DecidableEq

/-- A `hotspots` entry of the solver-backed result dict (main.py line 214);
the field `hType` embeds the `"type"` key. -/
structure Hotspot where
  hType : String
  value : ℚ
  location : List ℚ
  deriving DecidableEq

/-- The result dict stored in `JobStatus.results` (main.py lines 202-217 and
244-256).  The stub dict has no `hotspots` key (`none` here) and acquires its
`warning` key only in `_run_job`'s except branch. -/
structure ResultPayload where
  maxStress : ℚ
  minStress : ℚ
  avgStress : ℚ
  stressRange : ℚ
  maxDeformation : ℚ
  maxStrain : ℚ
  avgStrain : ℚ
  safetyFactor : ℚ
  timeSeriesData : List TimePoint
  stressStrainCurve : List StressPoint
  hotspots : Option (List Hotspot)
  source : String
  warning : Option String
  deriving DecidableEq

/-- Model of the mutable `JobStatus` record (main.py lines 39-44). -/
structure JobState where
  id : String
  status : String
  progress : ℤ
  results : Option ResultPayload
  error : Option String
  deriving DecidableEq

/-- The scalar field summaries the external dolfin solve produces
(main.py lines 168-184): these are computed by the out-of-scope collaborator
and consumed by the result assembly in `_solve_with_fenics`. -/
structure SolverSummary where
  max_stress : ℚ
  min_stress : ℚ
  avg_stress : ℚ
  max_strain : ℚ
  avg_strain : ℚ
  max_deformation : ℚ
  hotspot_location : List ℚ
  deriving DecidableEq

/-- Ambient Python runtime, abstracted: rational stand-ins for `math.sin` and
`math.exp`, and the seeded PRNG streams — `rngUnit seed k` is the k-th
unit-interval draw of `random.Random(seed)`. -/
structure Env where
  sinQ : ℚ → ℚ
  expQ : ℚ → ℚ
  rngUnit : String → ℕ → ℚ

/-- Model of `random.Random(seed).uniform a b` at draw index `k` of the
stream: `a + (b - a) * u` for the unit draw `u`. -/
def uniform (env : Env) (seed : String) (k : ℕ) (a b : ℚ) : ℚ :=
  a + (b - a) * env.rngUnit seed k

/-- The value of the float constant `math.pi` read as an exact rational. -/
def piQ : ℚ := 3.141592653589793

/-- Python `x or d` for an optional float: `None` and `0.0` are both falsy. -/
def pyOr (x : Option ℚ) (d : ℚ) : ℚ :=
  match x with
  | none => d
  | some v => if v = 0 then d else v

/-- Python `x if x is not None else d`. -/
def orElseNone (x : Option ℚ) (d : ℚ) : ℚ := x.getD d

/-- Python `xs or d` for a float list: an empty list is falsy. -/
def pyOrList (xs d : List ℚ) : List ℚ := if xs = [] then d else xs

/-- Python `int(...)` on a float: truncation toward zero. -/
def pyInt (q : ℚ) : ℤ := if 0 ≤ q then ⌊q⌋ else -⌊-q⌋

/-- Python `max(...)` over a float list, non-empty at every call site
(0 for the never-reached empty case). -/
def pyMax : List ℚ → ℚ
  | [] => 0
  | x :: xs => xs.foldl max x

/-- Python `min(...)` over a float list, non-empty at every call site. -/
def pyMin : List ℚ → ℚ
  | [] => 0
  | x :: xs => xs.foldl min x

/-- Model of `_build_stress_strain_curve` (main.py lines 300-325).  The
noise stream is `random.Random(job_id + "_curve")`, one draw per curve
point, taken in list order. -/
def build_stress_strain_curve (env : Env) (job_id : String)
    (payload : SimulationRequest) (max_stress : Option ℚ) : List StressPoint :=
  let curve := payload.material.stressStrainCurve
  if curve = [] then [{ strain := 0, stress := 0 }]
  else
    let applied_load := orElseNone payload.appliedLoad 1000
    let load_factor := max 0.6 (min 1.6 (applied_load / 1000))
    let max_curve_stress := pyMax (curve.map fun p => p.stress)
    let stress_scale :=
      match max_stress with
      | none => load_factor
      | some m => if m = 0 then load_factor else m / max_curve_stress
    let strain_scale := 1 + pyOr payload.damping_rat 0.05 * 0.2
    curve.enum.map fun ip =>
      let noise := uniform env (job_id ++ "_curve") ip.1 (-0.015) 0.015 * ip.2.stress
      { strain := ip.2.strain * strain_scale,
        stress := max 0 (ip.2.stress * stress_scale + noise) }

/-- Model of `_build_time_series` (main.py lines 259-297): the returned list
of 40 points.  The stream is `random.Random(job_id)`; iteration `index` takes
draw `2 * index` for the stress noise and `2 * index + 1` for the
displacement noise, in program order.  The interleaved progress callbacks are
modelled separately by `time_series_progress_candidates`. -/
def build_time_series (env : Env) (job_id : String)
    (payload : SimulationRequest) (max_stress : Option ℚ) : List TimePoint :=
  let duration := pyOr payload.duration 10
  let frequency := pyOr payload.frequency 1
  let damping := pyOr payload.damping_rat 0.05
  let points : ℕ := 40
  let base := pyOr max_stress 100 * 0.35
  let amplitude := pyOr max_stress 100 * 0.65
  (List.range points).map fun (index : ℕ) =>
    let time_value := duration * (index : ℚ) / (((points - 1).max 1 : ℕ) : ℚ)
    let oscillation := env.sinQ (2 * piQ * frequency * time_value / duration)
    let decay := env.expQ (-damping * time_value)
    let noise := uniform env job_id (2 * index) (-0.03) 0.03 * amplitude
    let stress_value := base + amplitude * oscillation * decay + noise
    let displacement :=
      time_value / duration * 0.2 + uniform env job_id (2 * index + 1) (-0.002) 0.002
    { time := time_value, stress := max stress_value 0,
      displacement := max displacement 0 }

/-- Model of `_estimate_allowable_stress` (main.py lines 335-340): 0.9 times
the reference curve's ultimate stress when the curve is non-empty, else 1.2
times the computed max stress. -/
def estimate_allowable_stress (payload : SimulationRequest) (max_stress : ℚ) : ℚ :=
  if payload.material.stressStrainCurve = [] then max_stress * 1.2
  else pyMax (payload.material.stressStrainCurve.map fun p => p.stress) * 0.9

/-- The safety-factor expression both result paths compute verbatim
(main.py lines 200 and 242). -/
def safety_factor (allowable_stress max_stress : ℚ) : ℚ :=
  if max_stress > 0 then allowable_stress / max_stress else 0

/-- Model of `_mesh_resolution` (main.py lines 328-332). -/
def mesh_resolution (payload : SimulationRequest) : ℤ :=
  let applied_load := orElseNone payload.appliedLoad 1000
  let duration := pyOr payload.duration 10
  let resolution := 6 + pyInt (min 6 (applied_load / 1000 + duration / 10))
  max 6 (min 14 resolution)

/-- Model of `_build_stub_results` (main.py lines 220-256). -/
def build_stub_results (env : Env) (job_id : String)
    (payload : SimulationRequest) : ResultPayload :=
  let stress_strain_curve := build_stress_strain_curve env job_id payload none
  let stresses := pyOrList (stress_strain_curve.map fun p => p.stress) [0]
  let strains := pyOrList (stress_strain_curve.map fun p => p.strain) [0]
  let max_stress := pyMax stresses
  let min_stress := pyMin stresses
  let avg_stress := stresses.sum / (stresses.length : ℚ)
  let stress_range := max_stress - min_stress
  let time_series := build_time_series env job_id payload (some max_stress)
  let allowable_stress := estimate_allowable_stress payload max_stress
  let sf := if max_stress > 0 then allowable_stress / max_stress else 0
  { maxStress := max_stress, minStress := min_stress, avgStress := avg_stress,
    stressRange := stress_range, maxDeformation := pyMax strains,
    maxStrain := pyMax strains, avgStrain := strains.sum / (strains.length : ℚ),
    safetyFactor := sf, timeSeriesData := time_series,
    stressStrainCurve := stress_strain_curve, hotspots := none,
    source := "fallback", warning := none }

/-- Model of the result assembly at the end of `_solve_with_fenics`
(main.py lines 188-217): the dolfin mesh/solve/projection work
(lines 105-186) is the external collaborator and enters through `summary`. -/
def solve_with_fenics_result (env : Env) (job_id : String)
    (payload : SimulationRequest) (summary : SolverSummary) : ResultPayload :=
  let max_stress := summary.max_stress
  let stress_range := max_stress - summary.min_stress
  let stress_strain_curve := build_stress_strain_curve env job_id payload (some max_stress)
  let time_series := build_time_series env job_id payload (some max_stress)
  let allowable_stress := estimate_allowable_stress payload max_stress
  let sf := if max_stress > 0 then allowable_stress / max_stress else 0
  { maxStress := max_stress, minStress := summary.min_stress,
    avgStress := summary.avg_stress, stressRange := stress_range,
    maxDeformation := summary.max_deformation, maxStrain := summary.max_strain,
    avgStrain := summary.avg_strain, safetyFactor := sf,
    timeSeriesData := time_series, stressStrainCurve := stress_strain_curve,
    hotspots := some [{ hType := "max_stress", value := max_stress,
                        location := summary.hotspot_location }],
    source := "fenics", warning := none }

/-- Model of `set_progress` inside `_run_job` (main.py lines 73-83).  The
throttling sleep affects no stored value, and after every call
`last_progress` equals the stored `status.progress` (line 82), which also
holds at entry (line 69), so the job record alone is the state:
`value = max(int(value), last_progress)` then `progress = min(value, 99)`. -/
def set_progress (s : JobState) (value : ℤ) : JobState :=
  { s with progress := min (max value s.progress) 99 }

/-- The successive job-record states visible after each `set_progress` write,
starting from (and including) `s`. -/
def progress_states (s : JobState) : List ℤ → List JobState
  | [] => [s]
  | c :: cs => s :: progress_states (set_progress s c) cs

/-- The record `create_job` stores before scheduling `_run_job`
(main.py lines 52-54). -/
def initial_job_state (job_id : String) : JobState :=
  { id := job_id, status := "running", progress := 5,
    results := none, error := none }

/-- The progress candidates `_build_time_series` passes to its callback
(main.py lines 292-296) for a given progress range: every 4th of the 40
indices, linearly interpolated across the range and truncated to int. -/
def time_series_progress_candidates (ps pe : ℤ) : List ℤ :=
  ((List.range 40).filter fun i => i % 4 == 0).map fun i =>
    pyInt ((ps : ℚ) + ((pe : ℚ) - (ps : ℚ)) * ((i : ℚ) / (((40 - 1 : ℕ).max 1 : ℕ) : ℚ)))

/-- The fallback result stored by `_run_job`'s except branch
(main.py lines 93-94): the stub results with the warning key added. -/
def fallback_results (env : Env) (job_id : String)
    (payload : SimulationRequest) : ResultPayload :=
  { build_stub_results env job_id payload with
    warning := some "FEniCS unavailable, using fallback results." }

/-- The successive job-record states written by `_run_job` (main.py lines
67-97) when the solver raises before reporting progress (e.g. `import dolfin`
fails): the initial record, `set_progress 8`, the except branch's
`set_progress 70`, the fallback time-series callbacks over range (70, 95),
then the three terminal stores `status = "completed"`, `progress = 100`,
`results = fallback` — each assignment a separately visible state. -/
def run_job_fail_states (env : Env) (job_id : String)
    (payload : SimulationRequest) : List JobState :=
  let s0 := initial_job_state job_id
  let cands := 8 :: 70 :: time_series_progress_candidates 70 95
  let sEnd := cands.foldl set_progress s0
  let s4 := { sEnd with status := "completed" }
  let s5 := { s4 with progress := 100 }
  let s6 := { s5 with results := some (fallback_results env job_id payload) }
  progress_states s0 cands ++ [s4, s5, s6]

/-- Terminal job state of `_run_job` (main.py lines 85-97), parametric in the
outcome of the external solver call: the try branch on success, the except
branch on any exception. -/
def run_job_final (env : Env) (job_id : String) (payload : SimulationRequest)
    (outcome : Except Unit SolverSummary) (s : JobState) : JobState :=
  match outcome with
  | .ok summary =>
    { s with
      status := "completed"
      progress := 100
      results := some (solve_with_fenics_result env job_id payload summary) }
  | .error _ =>
    { s with
      status := "completed"
      progress := 100
      results := some (fallback_results env job_id payload) }

/-! Concrete fixtures used for witnesses and counterexamples. -/

/-- Fixture environment: every unit draw is 1/2 (each `uniform` noise term is
the interval midpoint), sine is 0, exp is 1. -/
def envC : Env := { sinQ := fun _ => 0, expQ := fun _ => 1, rngUnit := fun _ _ => 1/2 }

/-- Fixture environment agreeing with `envC` on every stream except the one
seeded by the string "other". -/
def envD : Env :=
  { sinQ := fun _ => 0, expQ := fun _ => 1,
    rngUnit := fun seed _ => if seed = "other" then 0 else 1/2 }

/-- Fixture material whose reference curve has maximum stress 500. -/
def materialRef : Material :=
  { id := 1, name := "steel", youngsModulus := 210, poisson_rat := 3/10,
    stressStrainCurve := [{ strain := 1/10, stress := 250 },
                          { strain := 1/5, stress := 500 }] }

/-- Fixture request around `materialRef` with every optional field absent. -/
def payloadRef : SimulationRequest :=
  { name := "ref", materialId := 1, simType := "static", appliedLoad := none,
    temperature := none, duration := none, frequency := none,
    damping_rat := none, material := materialRef }

/-- Fixture material with an empty reference curve. -/
def materialEmpty : Material :=
  { id := 2, name := "blank", youngsModulus := 100, poisson_rat := 1/4,
    stressStrainCurve := [] }

/-- Fixture request around `materialEmpty`. -/
def payloadEmpty : SimulationRequest :=
  { name := "empty", materialId := 2, simType := "static", appliedLoad := none,
    temperature := none, duration := none, frequency := none,
    damping_rat := none, material := materialEmpty }

/-- Fixture material whose reference curve contains a negative strain. -/
def materialNeg : Material :=
  { id := 3, name := "neg", youngsModulus := 100, poisson_rat := 1/4,
    stressStrainCurve := [{ strain := -1, stress := 1 }] }

/-- Fixture request around `materialNeg`. -/
def payloadNeg : SimulationRequest :=
  { name := "neg", materialId := 3, simType := "static", appliedLoad := none,
    temperature := none, duration := none, frequency := none,
    damping_rat := none, material := materialNeg }

/-- Fixture request with duration 10, frequency 1 and damping ratio 0.05
explicitly supplied (the time-series example of the spec). -/
def payloadTS : SimulationRequest :=
  { name := "ts", materialId := 1, simType := "dynamic", appliedLoad := none,
    temperature := none, duration := some 10, frequency := some 1,
    damping_rat := some (1/20), material := materialRef }

/-- Fixture solver summary with computed maximum stress 250. -/
def summaryC : SolverSummary :=
  { max_stress := 250, min_stress := 10, avg_stress := 100,
    max_strain := 1/100, avg_strain := 1/200, max_deformation := 1/50,
    hotspot_location := [0, 0, 1] }

/-! Helper lemmas about the Python-style list extrema and averages. -/

theorem le_foldl_max (xs : List ℚ) (x : ℚ) : x ≤ xs.foldl max x := by
  induction xs generalizing x with
  | nil => exact le_refl x
  | cons a as ih => exact le_trans (le_max_left x a) (ih (max x a))

theorem mem_le_foldl_max (xs : List ℚ) : ∀ (x a : ℚ), a ∈ xs → a ≤ xs.foldl max x := by
  induction xs with
  | nil => intro x a ha; cases ha
  | cons b bs ih =>
    intro x a ha
    rcases List.mem_cons.mp ha with h | h
    · subst h
      exact le_trans (le_max_right x a) (le_foldl_max bs (max x a))
    · exact ih (max x b) a h

theorem mem_le_pyMax {l : List ℚ} (a : ℚ) (ha : a ∈ l) : a ≤ pyMax l := by
  cases l with
  | nil => cases ha
  | cons x xs =>
    rcases List.mem_cons.mp ha with h | h
    · subst h; exact le_foldl_max xs a
    · exact mem_le_foldl_max xs x a h

theorem foldl_min_le (xs : List ℚ) (x : ℚ) : xs.foldl min x ≤ x := by
  induction xs generalizing x with
  | nil => exact le_refl x
  | cons a as ih => exact le_trans (ih (min x a)) (min_le_left x a)

theorem foldl_min_le_mem (xs : List ℚ) : ∀ (x a : ℚ), a ∈ xs → xs.foldl min x ≤ a := by
  induction xs with
  | nil => intro x a ha; cases ha
  | cons b bs ih =>
    intro x a ha
    rcases List.mem_cons.mp ha with h | h
    · subst h
      exact le_trans (foldl_min_le bs (min x a)) (min_le_right x a)
    · exact ih (min x b) a h

theorem pyMin_le_mem {l : List ℚ} (a : ℚ) (ha : a ∈ l) : pyMin l ≤ a := by
  cases l with
  | nil => cases ha
  | cons x xs =>
    rcases List.mem_cons.mp ha with h | h
    · subst h; exact foldl_min_le xs a
    · exact foldl_min_le_mem xs x a h

theorem pyMax_nonneg {l : List ℚ} (h : l ≠ []) (h0 : ∀ a ∈ l, 0 ≤ a) : 0 ≤ pyMax l := by
  cases l with
  | nil => exact absurd rfl h
  | cons x xs =>
    exact le_trans (h0 x (List.mem_cons_self x xs)) (le_foldl_max xs x)

theorem length_pos_q {l : List ℚ} (h : l ≠ []) : 0 < (l.length : ℚ) := by
  have hp : 0 < l.length := List.length_pos.mpr h
  exact_mod_cast hp

theorem sum_div_length_le_pyMax (l : List ℚ) (h : l ≠ []) :
    l.sum / (l.length : ℚ) ≤ pyMax l := by
  rw [div_le_iff₀ (length_pos_q h)]
  calc l.sum ≤ l.length • pyMax l :=
        List.sum_le_card_nsmul l (pyMax l) fun x hx => mem_le_pyMax x hx
    _ = pyMax l * (l.length : ℚ) := by rw [nsmul_eq_mul]; ring

theorem pyMin_le_sum_div_length (l : List ℚ) (h : l ≠ []) :
    pyMin l ≤ l.sum / (l.length : ℚ) := by
  rw [le_div_iff₀ (length_pos_q h)]
  calc pyMin l * (l.length : ℚ) = l.length • pyMin l := by rw [nsmul_eq_mul]; ring
    _ ≤ l.sum := List.card_nsmul_le_sum l (pyMin l) fun x hx => pyMin_le_mem x hx

theorem pyOrList_ne_nil (xs d : List ℚ) (hd : d ≠ []) : pyOrList xs d ≠ [] := by
  unfold pyOrList
  split
  · exact hd
  · assumption

theorem snd_mem_of_mem_enumFrom {α : Type} :
    ∀ (l : List α) (n : ℕ) (p : ℕ × α), p ∈ List.enumFrom n l → p.2 ∈ l := by
  intro l
  induction l with
  | nil => intro n p hp; cases hp
  | cons x xs ih =>
    intro n p hp
    rw [List.enumFrom_cons] at hp
    rcases List.mem_cons.mp hp with h | h
    · subst h; exact List.mem_cons_self x xs
    · exact List.mem_cons_of_mem x (ih (n + 1) p h)

theorem snd_mem_of_mem_enum {α : Type} (l : List α) (p : ℕ × α)
    (hp : p ∈ l.enum) : p.2 ∈ l :=
  snd_mem_of_mem_enumFrom l 0 p hp

theorem range_map_getD {β : Type} (n k : ℕ) (f : ℕ → β) (d : β) (hk : k < n) :
    ((List.range n).map f).getD k d = f k := by
  rw [List.getD_eq_getElem?_getD, List.getElem?_map, List.getElem?_range hk]
  rfl

/-! Helper lemmas about the progress state machine. -/

theorem set_progress_le_99 (s : JobState) (v : ℤ) :
    (set_progress s v).progress ≤ 99 :=
  min_le_right _ _

theorem le_set_progress (s : JobState) (v : ℤ) (h : s.progress ≤ 99) :
    s.progress ≤ (set_progress s v).progress := by
  show s.progress ≤ min (max v s.progress) 99
  omega

theorem foldl_set_progress_results (l : List ℤ) :
    ∀ s : JobState, (l.foldl set_progress s).results = s.results := by
  induction l with
  | nil => intro s; rfl
  | cons c cs ih => intro s; exact ih (set_progress s c)

theorem progress_states_head (s : JobState) (cs : List ℤ) :
    ∃ rest, progress_states s cs = s :: rest := by
  cases cs with
  | nil => exact ⟨[], rfl⟩
  | cons c cs => exact ⟨progress_states (set_progress s c) cs, rfl⟩

theorem progress_states_chain (cands : List ℤ) :
    ∀ s : JobState, s.progress ≤ 99 →
      List.Chain' (· ≤ ·) ((progress_states s cands).map fun t => t.progress) ∧
      ∀ t ∈ progress_states s cands, t.progress ≤ 99 := by
  induction cands with
  | nil =>
    intro s h
    refine ⟨List.chain'_singleton _, ?_⟩
    intro t ht
    simp only [progress_states, List.mem_singleton] at ht
    subst ht
    exact h
  | cons c cs ih =>
    intro s h
    obtain ⟨ihc, ihb⟩ := ih (set_progress s c) (set_progress_le_99 s c)
    obtain ⟨rest, hr⟩ := progress_states_head (set_progress s c) cs
    constructor
    · simp only [progress_states]
      rw [hr, List.map_cons, List.map_cons, List.chain'_cons]
      refine ⟨le_set_progress s c h, ?_⟩
      rw [← List.map_cons, ← hr]
      exact ihc
    · intro t ht
      simp only [progress_states, List.mem_cons] at ht
      rcases ht with rfl | hm
      · exact h
      · exact ihb t hm

/-! Claim theorems. -/

/-- C1: refuted on the code.  In the write sequence of `_run_job`'s fallback
branch there is an externally visible job-record state with
`status = "completed"`, `progress = 100` and `results` still `none`: the
terminal writes store status and progress before the result payload
(main.py lines 95-97, and identically 88-90), so a reader observing
`status = "completed"` is not guaranteed populated results. -/
theorem c1_completed_visible_without_results :
    ∃ s ∈ run_job_fail_states envC "job-c1" payloadEmpty,
      s.status = "completed" ∧ s.progress = 100 ∧ s.results = none := by
  have hlen : 14 < (run_job_fail_states envC "job-c1" payloadEmpty).length := by
    decide
  refine ⟨(run_job_fail_states envC "job-c1" payloadEmpty).getD 14
      (initial_job_state "job-c1"), ?_, rfl, rfl, rfl⟩
  rw [List.getD_eq_getElem _ _ hlen]
  exact List.getElem_mem hlen

/-- C2 (amended): on any exception from the solver path, `_run_job` catches
it, runs the fallback synthesizer (total by construction) and finishes with
status `"completed"`, progress 100, an untouched error field, and a stored
result with `source = "fallback"` and the fixed non-empty warning; on solver
success the stored result carries `source = "fenics"` — the code's literal
tag for solver-backed results, where the claim said `"solver"` — and no
warning.  No outcome yields a failed state. -/
theorem c2_degrade_to_completed (env : Env) (job_id : String)
    (payload : SimulationRequest) (outcome : Except Unit SolverSummary)
    (s : JobState) (hs : s.error = none) :
    (run_job_final env job_id payload outcome s).status = "completed" ∧
    (run_job_final env job_id payload outcome s).progress = 100 ∧
    (run_job_final env job_id payload outcome s).error = none ∧
    ∃ r, (run_job_final env job_id payload outcome s).results = some r ∧
      r.warning ≠ some "" ∧
      (∀ e, outcome = Except.error e → r.source = "fallback" ∧
        r.warning = some "FEniCS unavailable, using fallback results.") ∧
      (∀ a, outcome = Except.ok a → r.source = "fenics" ∧ r.warning = none) := by
  cases outcome with
  | ok a =>
    refine ⟨rfl, rfl, hs, solve_with_fenics_result env job_id payload a, rfl, ?_, ?_, ?_⟩
    · intro hw
      exact Option.noConfusion hw
    · intro e he
      exact Except.noConfusion he
    · intro a2 _
      exact ⟨rfl, rfl⟩
  | error e =>
    refine ⟨rfl, rfl, hs, fallback_results env job_id payload, rfl, ?_, ?_, ?_⟩
    · intro hw
      have : "FEniCS unavailable, using fallback results." = "" := Option.some.inj hw
      exact absurd this (by decide)
    · intro e2 _
      exact ⟨rfl, rfl⟩
    · intro a2 ha
      exact Except.noConfusion ha

/-- Witness for C2's theorem at a concrete failing outcome. -/
theorem c2_degrade_to_completed_witness :
    (run_job_final envC "job-w2" payloadEmpty (Except.error ())
        (initial_job_state "job-w2")).status = "completed" ∧
    (run_job_final envC "job-w2" payloadEmpty (Except.error ())
        (initial_job_state "job-w2")).progress = 100 :=
  ⟨(c2_degrade_to_completed envC "job-w2" payloadEmpty (Except.error ())
      (initial_job_state "job-w2") rfl).1,
   (c2_degrade_to_completed envC "job-w2" payloadEmpty (Except.error ())
      (initial_job_state "job-w2") rfl).2.1⟩

/-- C2 as stated is false on the solver-success path: the solver-backed
result is tagged with the literal source `"fenics"` (main.py line 216), not
`"solver"`, hence not in {solver, fallback}. -/
theorem c2_source_tag_cex :
    ((run_job_final envC "job-c2" payloadRef (Except.ok summaryC)
        (initial_job_state "job-c2")).results.map fun r => r.source)
      = some "fenics" ∧
    ("fenics" : String) ≠ "solver" ∧ ("fenics" : String) ≠ "fallback" :=
  ⟨rfl, by decide, by decide⟩

/-- C4: each `set_progress` observation stores exactly
`max(lastReportedValue, min(candidateValue, 99))` (given the running
invariant that the stored progress is at most 99, true from the initial 5),
every stored value stays at most 99, the sequence of stored values over any
candidate list is non-decreasing, and only the terminal transition of
`_run_job` stores exactly 100. -/
theorem c4_progress_monotone_capped (s : JobState) (v : ℤ) (cands : List ℤ)
    (env : Env) (job_id : String) (payload : SimulationRequest)
    (outcome : Except Unit SolverSummary) (h : s.progress ≤ 99) :
    (set_progress s v).progress = max s.progress (min v 99) ∧
    (set_progress s v).progress ≤ 99 ∧
    List.Chain' (· ≤ ·) ((progress_states s cands).map fun t => t.progress) ∧
    (∀ t ∈ progress_states s cands, t.progress ≤ 99) ∧
    (run_job_final env job_id payload outcome s).progress = 100 := by
  obtain ⟨hchain, hb⟩ := progress_states_chain cands s h
  refine ⟨?_, set_progress_le_99 s v, hchain, hb, ?_⟩
  · show min (max v s.progress) 99 = max s.progress (min v 99)
    omega
  · cases outcome <;> rfl

/-- Witness for C4's theorem at the initial job record and a concrete
candidate list. -/
theorem c4_progress_monotone_capped_witness :
    List.Chain' (· ≤ ·)
      ((progress_states (initial_job_state "job-w4") [8, 70, 120]).map
        fun t => t.progress) :=
  (c4_progress_monotone_capped (initial_job_state "job-w4") 8 [8, 70, 120]
    envC "job-w4" payloadEmpty (Except.error ()) (by decide)).2.2.1

/-- C3: the fallback synthesis is deterministic — its outputs depend on the
runtime only through the deterministic math functions and the PRNG streams
seeded by the job identifier (the curve using the fixed suffix "_curve", the
time series the bare identifier), so two environments agreeing there produce
bit-identical curves, time series and fallback payloads; in particular two
invocations with the same job identifier and request are identical. -/
theorem c3_seeded_determinism (env env2 : Env) (job_id : String)
    (payload : SimulationRequest) (ms : Option ℚ)
    (hcs : ∀ k, env.rngUnit (job_id ++ "_curve") k = env2.rngUnit (job_id ++ "_curve") k)
    (hts : ∀ k, env.rngUnit job_id k = env2.rngUnit job_id k)
    (hsin : env.sinQ = env2.sinQ) (hexp : env.expQ = env2.expQ) :
    build_stress_strain_curve env job_id payload ms
      = build_stress_strain_curve env2 job_id payload ms ∧
    build_time_series env job_id payload ms
      = build_time_series env2 job_id payload ms ∧
    build_stub_results env job_id payload = build_stub_results env2 job_id payload := by
  have hc : ∀ t, build_stress_strain_curve env job_id payload t
      = build_stress_strain_curve env2 job_id payload t := by
    intro t
    by_cases hcur : payload.material.stressStrainCurve = []
    · simp [build_stress_strain_curve, hcur]
    · simp only [build_stress_strain_curve, if_neg hcur]
      apply List.map_congr_left
      intro ip _
      simp only [uniform, hcs]
  have ht : ∀ t, build_time_series env job_id payload t
      = build_time_series env2 job_id payload t := by
    intro t
    simp only [build_time_series]
    apply List.map_congr_left
    intro i _
    simp only [uniform, hts, hsin, hexp]
  refine ⟨hc ms, ht ms, ?_⟩
  simp only [build_stub_results, hc, ht]

/-- Witness for C3's theorem: two distinct concrete environments that agree
on the streams seeded by "job-w3" produce the same fallback payload. -/
theorem c3_seeded_determinism_witness :
    build_stub_results envC "job-w3" payloadRef
      = build_stub_results envD "job-w3" payloadRef :=
  (c3_seeded_determinism envC envD "job-w3" payloadRef none
    (fun _ => rfl) (fun _ => rfl) rfl rfl).2.2

/-- C5: for every request, the fallback synthesizer terminates (it is a total
function of its inputs) and its payload satisfies
minStress ≤ avgStress ≤ maxStress with stressRange = maxStress − minStress
(exactly, in the rational model of float arithmetic), the scalars being
derived from the never-empty synthetic curve's stress values. -/
theorem c5_fallback_stress_stats (env : Env) (job_id : String)
    (payload : SimulationRequest) :
    (build_stub_results env job_id payload).minStress
      ≤ (build_stub_results env job_id payload).avgStress ∧
    (build_stub_results env job_id payload).avgStress
      ≤ (build_stub_results env job_id payload).maxStress ∧
    (build_stub_results env job_id payload).stressRange
      = (build_stub_results env job_id payload).maxStress
        - (build_stub_results env job_id payload).minStress := by
  have hne : pyOrList ((build_stress_strain_curve env job_id payload none).map
      fun p => p.stress) [0] ≠ [] :=
    pyOrList_ne_nil _ _ (by simp)
  exact ⟨pyMin_le_sum_div_length _ hne, sum_div_length_le_pyMax _ hne, rfl⟩

/-- C7: allowable stress is 0.9 × the reference curve's maximum stress when
the curve is non-empty, else 1.2 × the computed maxStress; the safety factor
is allowable/maxStress when maxStress > 0 else 0, computed by the same
expression in both result paths; with reference-curve max stress 500 and
computed maxStress 250 this gives allowableStress 450 and safetyFactor 1.8. -/
theorem c7_allowable_and_safety :
    (∀ (payload : SimulationRequest) (m : ℚ),
      estimate_allowable_stress payload m =
        if payload.material.stressStrainCurve = [] then 1.2 * m
        else 0.9 * pyMax (payload.material.stressStrainCurve.map fun p => p.stress)) ∧
    (∀ a m : ℚ, safety_factor a m = if 0 < m then a / m else 0) ∧
    (∀ (env : Env) (job_id : String) (payload : SimulationRequest)
        (summary : SolverSummary),
      (solve_with_fenics_result env job_id payload summary).safetyFactor =
        safety_factor (estimate_allowable_stress payload summary.max_stress)
          summary.max_stress) ∧
    (∀ (env : Env) (job_id : String) (payload : SimulationRequest),
      (build_stub_results env job_id payload).safetyFactor =
        safety_factor
          (estimate_allowable_stress payload (build_stub_results env job_id payload).maxStress)
          (build_stub_results env job_id payload).maxStress) ∧
    estimate_allowable_stress payloadRef 250 = 450 ∧
    safety_factor (estimate_allowable_stress payloadRef 250) 250 = 1.8 := by
  have hmax : pyMax (payloadRef.material.stressStrainCurve.map fun p => p.stress)
      = 500 := by
    show max (250 : ℚ) 500 = 500
    exact max_eq_right (by norm_num)
  have h450 : estimate_allowable_stress payloadRef 250 = 450 := by
    unfold estimate_allowable_stress
    rw [if_neg (by simp [payloadRef, materialRef]), hmax]
    norm_num
  refine ⟨?_, ?_, ?_, ?_, h450, ?_⟩
  · intro payload m
    unfold estimate_allowable_stress
    split
    · ring
    · ring
  · intro a m
    rfl
  · intro env job_id payload summary
    rfl
  · intro env job_id payload
    rfl
  · rw [h450]
    unfold safety_factor
    rw [if_pos (by norm_num)]
    norm_num

/-- C8: with an empty material reference curve the synthetic curve is exactly
the degenerate point (0, 0), and the fallback payload reports
maxStress = minStress = avgStress = 0, stressRange 0, and safetyFactor 0
(the maxStress > 0 guard takes the zero branch, so no division occurs). -/
theorem c8_empty_curve (env : Env) (job_id : String)
    (payload : SimulationRequest)
    (h : payload.material.stressStrainCurve = []) :
    build_stress_strain_curve env job_id payload none
      = [{ strain := 0, stress := 0 }] ∧
    (build_stub_results env job_id payload).maxStress = 0 ∧
    (build_stub_results env job_id payload).minStress = 0 ∧
    (build_stub_results env job_id payload).avgStress = 0 ∧
    (build_stub_results env job_id payload).stressRange = 0 ∧
    (build_stub_results env job_id payload).safetyFactor = 0 := by
  have hc : build_stress_strain_curve env job_id payload none
      = [{ strain := 0, stress := 0 }] := by
    simp [build_stress_strain_curve, h]
  refine ⟨hc, ?_, ?_, ?_, ?_, ?_⟩
  · simp [build_stub_results, hc, pyOrList, pyMax]
  · simp [build_stub_results, hc, pyOrList, pyMin]
  · simp [build_stub_results, hc, pyOrList]
  · simp [build_stub_results, hc, pyOrList, pyMax, pyMin]
  · simp [build_stub_results, hc, pyOrList, pyMax]

/-- Witness for C8's theorem at a concrete empty-curve material. -/
theorem c8_empty_curve_witness :
    build_stress_strain_curve envC "job-w8" payloadEmpty none
      = [{ strain := 0, stress := 0 }] :=
  (c8_empty_curve envC "job-w8" payloadEmpty rfl).1

/-- Every generated time-series point has non-negative stress and
displacement: both coordinates are floored at zero in the source. -/
theorem build_time_series_nonneg (env : Env) (job_id : String)
    (payload : SimulationRequest) (ms : Option ℚ) :
    ∀ t ∈ build_time_series env job_id payload ms,
      0 ≤ t.stress ∧ 0 ≤ t.displacement := by
  intro t htm
  simp only [build_time_series] at htm
  obtain ⟨i, _, rfl⟩ := List.mem_map.mp htm
  exact ⟨le_max_right _ 0, le_max_right _ 0⟩

/-- C6 (amended): every stress value of the synthetic curve and every stress
and displacement value of the time series is non-negative unconditionally
(each is floored at zero); the strain-valued outputs (the curve's strain
coordinates and the fallback payload's maxStrain, avgStrain, maxDeformation)
are non-negative provided every reference-curve strain is non-negative and
the effective damping ratio is non-negative — the claim's unconditional form
fails for reference curves with negative strains. -/
theorem c6_nonneg_outputs (env : Env) (job_id : String)
    (payload : SimulationRequest) :
    (∀ ms, ∀ p ∈ build_stress_strain_curve env job_id payload ms,
      0 ≤ p.stress) ∧
    (∀ ms, ∀ t ∈ build_time_series env job_id payload ms,
      0 ≤ t.stress ∧ 0 ≤ t.displacement) ∧
    ((∀ p ∈ payload.material.stressStrainCurve, 0 ≤ p.strain) →
      0 ≤ pyOr payload.damping_rat 0.05 →
      (∀ ms, ∀ p ∈ build_stress_strain_curve env job_id payload ms,
        0 ≤ p.strain) ∧
      0 ≤ (build_stub_results env job_id payload).maxStrain ∧
      0 ≤ (build_stub_results env job_id payload).avgStrain ∧
      0 ≤ (build_stub_results env job_id payload).maxDeformation) := by
  have hstress : ∀ ms, ∀ p ∈ build_stress_strain_curve env job_id payload ms,
      0 ≤ p.stress := by
    intro ms p hp
    by_cases hcur : payload.material.stressStrainCurve = []
    · simp [build_stress_strain_curve, hcur] at hp
      subst hp
      exact le_refl 0
    · simp only [build_stress_strain_curve, if_neg hcur] at hp
      obtain ⟨ip, _, rfl⟩ := List.mem_map.mp hp
      exact le_max_left 0 _
  refine ⟨hstress, fun ms => build_time_series_nonneg env job_id payload ms, ?_⟩
  intro hstrain hdamp
  have hscale : (0 : ℚ) ≤ 1 + pyOr payload.damping_rat 0.05 * 0.2 := by
    have h2 : (0 : ℚ) ≤ pyOr payload.damping_rat 0.05 * 0.2 :=
      mul_nonneg hdamp (by norm_num)
    linarith
  have hcurve : ∀ ms, ∀ p ∈ build_stress_strain_curve env job_id payload ms,
      0 ≤ p.strain := by
    intro ms p hp
    by_cases hcur : payload.material.stressStrainCurve = []
    · simp [build_stress_strain_curve, hcur] at hp
      subst hp
      exact le_refl 0
    · simp only [build_stress_strain_curve, if_neg hcur] at hp
      obtain ⟨ip, hip, rfl⟩ := List.mem_map.mp hp
      exact mul_nonneg (hstrain ip.2 (snd_mem_of_mem_enum _ ip hip)) hscale
  have hstr : ∀ a ∈ pyOrList
      ((build_stress_strain_curve env job_id payload none).map fun p => p.strain)
      [0], (0 : ℚ) ≤ a := by
    intro a ha
    unfold pyOrList at ha
    by_cases hmap : (build_stress_strain_curve env job_id payload none).map
        (fun p => p.strain) = []
    · rw [if_pos hmap] at ha
      rw [List.mem_singleton] at ha
      subst ha
      exact le_refl 0
    · rw [if_neg hmap] at ha
      obtain ⟨p, hp, rfl⟩ := List.mem_map.mp ha
      exact hcurve none p hp
  have hnen : pyOrList
      ((build_stress_strain_curve env job_id payload none).map fun p => p.strain)
      [0] ≠ [] := pyOrList_ne_nil _ _ (by simp)
  exact ⟨hcurve, pyMax_nonneg hnen hstr,
    div_nonneg (List.sum_nonneg hstr) (Nat.cast_nonneg _),
    pyMax_nonneg hnen hstr⟩

/-- Witness for C6's amended theorem: the conditional strain clause applied
at a concrete non-negative reference curve. -/
theorem c6_nonneg_outputs_witness :
    0 ≤ (build_stub_results envC "job-w6" payloadRef).maxStrain := by
  refine ((c6_nonneg_outputs envC "job-w6" payloadRef).2.2 ?_ ?_).2.1
  · intro p hp
    simp [payloadRef, materialRef] at hp
    rcases hp with rfl | rfl <;> norm_num
  · norm_num [payloadRef, pyOr]

/-- C6 as stated is false: with a material reference curve containing a
negative strain (and all other inputs valid), the fallback payload's
maxStrain — the maximum of the synthetic curve's strain coordinates — is
negative. -/
theorem c6_negative_strain_cex :
    (build_stub_results envC "job-c6" payloadNeg).maxStrain < 0 := by
  have hmap : (build_stress_strain_curve envC "job-c6" payloadNeg none).map
      (fun p => p.strain) = [-(101/100)] := by
    simp [build_stress_strain_curve, payloadNeg, materialNeg, pyOr,
      List.enum, List.enumFrom]
    norm_num
  show pyMax (pyOrList
      ((build_stress_strain_curve envC "job-c6" payloadNeg none).map
        fun p => p.strain) [0]) < 0
  rw [hmap]
  norm_num [pyOrList, pyMax, List.foldl]

/-- The k-th time value of the generated series (k < 40) is the effective
duration times k/39: 40 points uniformly spaced from 0 to the duration. -/
theorem build_time_series_getD_time (env : Env) (job_id : String)
    (payload : SimulationRequest) (ms : Option ℚ) (k : ℕ) (hk : k < 40)
    (d : TimePoint) :
    ((build_time_series env job_id payload ms).getD k d).time
      = pyOr payload.duration 10 * (k : ℚ) / 39 := by
  simp only [build_time_series]
  rw [range_map_getD 40 k _ d hk]
  show pyOr payload.duration 10 * (k : ℚ) / (((40 - 1 : ℕ).max 1 : ℕ) : ℚ) = _
  rw [show ((40 - 1 : ℕ).max 1) = (39 : ℕ) from by decide]
  norm_num

/-- C9: the time-series generator always returns exactly 40 points whose
k-th time value is duration·k/39 (uniform spacing over [0, duration]); with
duration 10, frequency 1, damping ratio 0.05 and baseline stress 100 the
first time is 0 and the last is 10; every stress and displacement value is
non-negative. -/
theorem c9_time_series_shape (env : Env) (job_id : String)
    (payload : SimulationRequest) (ms : Option ℚ) (k : ℕ) (hk : k < 40) :
    (build_time_series env job_id payload ms).length = 40 ∧
    ((build_time_series env job_id payload ms).getD k
        { time := 0, stress := 0, displacement := 0 }).time
      = pyOr payload.duration 10 * (k : ℚ) / 39 ∧
    (∀ t ∈ build_time_series env job_id payload ms,
      0 ≤ t.stress ∧ 0 ≤ t.displacement) ∧
    ((build_time_series env job_id payloadTS (some 100)).getD 0
        { time := 0, stress := 0, displacement := 0 }).time = 0 ∧
    ((build_time_series env job_id payloadTS (some 100)).getD 39
        { time := 0, stress := 0, displacement := 0 }).time = 10 := by
  refine ⟨?_, build_time_series_getD_time env job_id payload ms k hk _,
    build_time_series_nonneg env job_id payload ms, ?_, ?_⟩
  · simp [build_time_series]
  · rw [build_time_series_getD_time env job_id payloadTS (some 100) 0
      (by norm_num) _]
    norm_num [payloadTS, pyOr]
  · rw [build_time_series_getD_time env job_id payloadTS (some 100) 39
      (by norm_num) _]
    norm_num [payloadTS, pyOr]

/-- Witness for C9's theorem at a concrete environment and index. -/
theorem c9_time_series_shape_witness :
    (build_time_series envC "job-w9" payloadTS (some 100)).length = 40 :=
  (c9_time_series_shape envC "job-w9" payloadTS (some 100) 0 (by norm_num)).1

/-- C10: a supplied zero is treated as absent for duration, frequency and
damping ratio (Python `or` truthiness) in time-series generation, curve
strain scaling and mesh-resolution derivation, while appliedLoad uses an
explicit None test: appliedLoad = 0 is honored as zero (mesh resolution 7,
against 8 for an absent load) and only a missing appliedLoad defaults to
1000. -/
theorem c10_zero_optional_semantics (env : Env) (job_id : String)
    (payload : SimulationRequest) (ms : Option ℚ) :
    build_time_series env job_id { payload with duration := some 0 } ms
      = build_time_series env job_id { payload with duration := none } ms ∧
    build_time_series env job_id { payload with frequency := some 0 } ms
      = build_time_series env job_id { payload with frequency := none } ms ∧
    build_time_series env job_id { payload with damping_rat := some 0 } ms
      = build_time_series env job_id { payload with damping_rat := none } ms ∧
    build_stress_strain_curve env job_id { payload with damping_rat := some 0 } ms
      = build_stress_strain_curve env job_id { payload with damping_rat := none } ms ∧
    mesh_resolution { payload with duration := some 0 }
      = mesh_resolution { payload with duration := none } ∧
    mesh_resolution { payloadRef with appliedLoad := some 0 } = 7 ∧
    mesh_resolution { payloadRef with appliedLoad := none } = 8 ∧
    orElseNone (some 0) 1000 = 0 ∧ orElseNone none 1000 = 1000 := by
  refine ⟨?_, ?_, ?_, ?_, ?_, ?_, ?_, rfl, rfl⟩
  · simp [build_time_series, pyOr]
  · simp [build_time_series, pyOr]
  · simp [build_time_series, pyOr]
  · simp [build_stress_strain_curve, pyOr]
  · simp [mesh_resolution, pyOr]
  · norm_num [mesh_resolution, orElseNone, pyOr, pyInt, payloadRef,
      min_def, max_def]
  · norm_num [mesh_resolution, orElseNone, pyOr, pyInt, payloadRef,
      min_def, max_def]

end FenicsService
